import Mathlib

/-!
Verification of the core monitoring logic of the `website-change-notifier`
repository (`src/main.rs` and `src/website_data.rs`).

The two Rust files are two revisions of the same program; they share the
`WebsiteData` record layout and the cooldown / backoff / confirmation logic.
We embed them shallowly:

* machine integers become `Nat` with explicit `% 2^w` at the points where the
  Rust code can wrap (`u8` for `changes_stacking`, `u16` for
  `current_cooldown`, `u32` for `total_cooldowns` and `total_runs`;
  release-build wrapping semantics);
* `f64` similarity scores and thresholds become `ℚ` (the code only ever
  compares and averages finitely many scores in `[0,1]`, where rational
  arithmetic is exact);
* the pixel buffer type `RgbImage` is an opaque collaborator type, embedded as
  a type parameter `Img`;
* the external collaborators (headless browser, image comparator, page text)
  are an explicit environment `CheckEnv`: the outcome of the i-th render
  attempt of a check, the comparator function (`none` = shape mismatch), and
  the page text fetch (`none` = evaluate error);
* Rust `?` error propagation becomes an explicit `CheckOutcome.err` result
  carrying the state as mutated so far; `panic!`/`expect` becomes
  `CheckOutcome.panicked`.
-/

namespace WebsiteChangeNotifier

/-- `MERCH_KEYWORDS` from `main.rs`: the externally supplied lowercase trigger
keyword list. -/
def MERCH_KEYWORDS : List String :=
  ["merch", "store", "shop", "buy", "clothing", "clothes"]

/-- The `WebsiteData` struct shared by both revisions.  `Img` stands for the
opaque `RgbImage` collaborator type.  `main.rs` stores the scripts as a plain
`Vec<String>` while `website_data.rs` wraps them in `Option`; we use the plain
list (absent = `[]`), which the renderer treats identically (it just iterates
them).  `total_runs` is `u32` in `main.rs` (the revision containing
`check_site`) and `u64` in `website_data.rs`; we model the `u32` width of the
revision under test. -/
structure WebsiteData (Img : Type) where
  url : String
  script : List String
  screenshot_selector : Option String
  wait : Nat
  threshold : ℚ
  max_retries : Nat
  last_image : Option Img
  merch_already_detected : Bool
  /-- `u8` in the source. -/
  changes_stacking : Nat
  /-- `u16` in the source. -/
  current_cooldown : Nat
  /-- `u32` in the source. -/
  total_cooldowns : Nat
  /-- `u32` in the source (`main.rs`). -/
  total_runs : Nat
deriving DecidableEq, Repr

/-- `WebsiteData::should_request` (`main.rs`) = `should_website_request`
(`website_data.rs`): the cooldown gate.  Returns whether the check should run
this cycle together with the updated state. -/
def should_website_request {Img : Type} (s : WebsiteData Img) :
    Bool × WebsiteData Img :=
  if s.current_cooldown = 0 then (true, s)
  else
    let c := s.current_cooldown - 1
    (decide (c = 0), { s with current_cooldown := c })

/-- `WebsiteData::should_notify` (`main.rs`) = `should_send_notification`
(`website_data.rs`).  Infers that changes were detected; decides whether this
notification is allowed or instead imposes a cooldown.  `changes_stacking` is
`u8`, `total_cooldowns` is `u32` and `current_cooldown` is `u16`, so the
increments and `(3_u16).pow(total_cooldowns)` wrap accordingly (release-build
semantics). -/
def should_send_notification {Img : Type} (s : WebsiteData Img) :
    Bool × WebsiteData Img :=
  let stacked := (s.changes_stacking + 1) % 256
  if 4 ≤ stacked then
    let tc := (s.total_cooldowns + 1) % 4294967296
    (false,
      { s with
        total_cooldowns := tc
        current_cooldown := 3 ^ tc % 65536
        changes_stacking := 0 })
  else
    (true, { s with changes_stacking := stacked })

/-- `WebsiteData::nothing_changed` (`website_data.rs`); inlined at
`main.rs:250-257`: a quiet cycle decrements `total_cooldowns` (floored at 0)
and resets the streak. -/
def nothing_changed {Img : Type} (s : WebsiteData Img) : WebsiteData Img :=
  { s with
    total_cooldowns := if s.total_cooldowns ≠ 0 then s.total_cooldowns - 1
                       else s.total_cooldowns
    changes_stacking := 0 }

/-- A single quote character, used in the generated `querySelectorAll` script. -/
def squote : String := String.singleton (Char.ofNat 39)

/-- The `"()=>\x7b...\x7d"` arrow-function wrapper applied by
`inner_add_script` / `with_script`. -/
def script_wrap (s : String) : String := "()=>\x7b" ++ s ++ "\x7d"

/-- `WebsiteDataBuilder::inner_remove_elements_script`. -/
def inner_remove_elements_script (elements : List String) : String :=
  "document.querySelectorAll(" ++ squote ++ String.intercalate (", ") elements
    ++ squote ++ ")?.forEach(a => a?.remove());"

/-- The `WebsiteDataBuilder` struct of `website_data.rs`.  The fluent setter
methods (`url`, `wait`, `threshold`, `confirmations`, `selector`, ...) are
plain record updates and are not separately modelled; `add_script` appends
`script_wrap` of its argument to `inner_scripts`. -/
structure WebsiteDataBuilder where
  url : String
  inner_scripts : Option (List String)
  screenshot_selector : Option String
  wait : Nat
  threshold : ℚ
  max_confirms : Nat
  remove_elements : Option (List String)
  scripts : Option (List String)
deriving DecidableEq, Repr

/-- `WebsiteDataBuilder::default_threshold`. -/
def default_threshold : ℚ := 99 / 100

/-- `WebsiteDataBuilder::default_max_confirms`. -/
def default_max_confirms : Nat := 3

/-- `Default for WebsiteDataBuilder`. -/
def builderDefault : WebsiteDataBuilder :=
  { url := ""
    inner_scripts := none
    screenshot_selector := none
    wait := 0
    threshold := default_threshold
    max_confirms := default_max_confirms
    remove_elements := none
    scripts := none }

/-- `website_data.rs` `wd`: shorthand for creating a builder with a url. -/
def wd (url : String) : WebsiteDataBuilder :=
  { builderDefault with url := url }

/-- `WebsiteDataBuilder::inner_add_script`, lifted to the script list. -/
def inner_add_script (scripts : Option (List String)) (script : String) :
    Option (List String) :=
  some (scripts.getD [] ++ [script_wrap script])

/-- `WebsiteDataBuilder::build`.  The three `panic!` validations become
`none`; on success the remaining deserialization-only fields are folded into
the script list exactly as the source does and the runtime state is
initialised. -/
def build (Img : Type) (b : WebsiteDataBuilder) : Option (WebsiteData Img) :=
  if b.url.isEmpty then none
  else if b.max_confirms = 0 then none
  else if b.threshold < 0 ∨ 1 < b.threshold then none
  else
    let s1 := match b.remove_elements with
      | some elements =>
          inner_add_script b.inner_scripts (inner_remove_elements_script elements)
      | none => b.inner_scripts
    let s2 := match b.scripts with
      | some scripts => scripts.foldl inner_add_script s1
      | none => s1
    some
      { url := b.url
        script := s2.getD []
        screenshot_selector := b.screenshot_selector
        wait := b.wait
        threshold := b.threshold
        max_retries := b.max_confirms
        last_image := none
        merch_already_detected := false
        changes_stacking := 0
        current_cooldown := 0
        total_cooldowns := 0
        total_runs := 0 }

/-- `main.rs` `wd` (lines 124-141): the revision that constructs
`WebsiteData` directly with default threshold `0.99` and `max_retries = 3`,
performing no validation at all. -/
def wd_main (Img : Type) (url : String) : WebsiteData Img :=
  { url := url
    script := []
    screenshot_selector := none
    wait := 0
    threshold := 99 / 100
    max_retries := 3
    last_image := none
    merch_already_detected := false
    changes_stacking := 0
    current_cooldown := 0
    total_cooldowns := 0
    total_runs := 0 }

/-- The external collaborators of one `check_site` call:
`atts i` is the outcome of the i-th `create_screenshot` render attempt
(`none` = renderer/navigation error, which `?`-aborts the check);
`cmp` is `image_compare::rgb_hybrid_compare` (`none` = dimension mismatch);
`text` is the `document.body.outerHTML` fetch (`none` = evaluate error). -/
structure CheckEnv (Img : Type) where
  atts : Nat → Option Img
  cmp : Img → Img → Option ℚ
  text : Option String

/-- The score computation inside `create_screenshot` (`main.rs:304-314`):
compare the fresh capture with the previous image; a comparator failure
(dimension mismatch) is forced to `0.0`, an absent previous image to `1.0`. -/
def screenshot_score {Img : Type} (cmp : Img → Img → Option ℚ)
    (last_image : Option Img) (img : Img) : ℚ :=
  match last_image with
  | some li => (cmp img li).getD 0
  | none => 1

/-- The confirmation loop of `check_site` (`main.rs:213-223`): up to `fuel`
(`max_retries`) attempts starting at index `i`; each attempt renders
(`env.atts`), scores against the previous image, pushes the pair, and stops
early when the score strictly exceeds the threshold.  Returns the collected
`(score, image)` pairs together with an error flag (`true` when an attempt's
`create_screenshot` failed, which aborts the whole check and discards the
collected list). -/
def collect_shots {Img : Type} (cmp : Img → Img → Option ℚ) (thr : ℚ)
    (li : Option Img) (atts : Nat → Option Img) :
    Nat → Nat → List (ℚ × Img) × Bool
  | _, 0 => ([], false)
  | i, fuel + 1 =>
    match atts i with
    | none => ([], true)
    | some img =>
      let sc := screenshot_score cmp li img
      if thr < sc then ([(sc, img)], false)
      else
        let rest := collect_shots cmp thr li atts (i + 1) fuel
        ((sc, img) :: rest.1, rest.2)

/-- `Iterator::max_by` on the score component (`main.rs:231-233`): `none` on
the empty list (where the source `expect`s, i.e. panics), otherwise the last
maximal element. -/
def max_shot {Img : Type} : List (ℚ × Img) → Option (ℚ × Img)
  | [] => none
  | x :: xs => some (xs.foldl (fun acc y => if acc.1 ≤ y.1 then y else acc) x)

/-- Lowercasing of the page text (`to_lowercase`), on the character list. -/
def strLower (s : String) : List Char := s.toList.map Char.toLower

/-- Rust `str::contains`: `containsSub hay need` decides whether `need`
occurs as a contiguous substring of `hay`. -/
def containsSub (hay need : List Char) : Bool :=
  match hay with
  | [] => need.isEmpty
  | _ :: t => need.isPrefixOf hay || containsSub t need

/-- The keyword scan (`main.rs:240-241`): some trigger keyword occurs in the
(lowercased) page text. -/
def merch_scan (text : List Char) : Bool :=
  MERCH_KEYWORDS.any fun k => containsSub text k.toList

/-- The latch step (`main.rs:243-247`): given the current
`merch_already_detected` flag and the raw scan result, returns the
`merch_newly_detected` verdict together with the updated flag. -/
def merch_step (already matched : Bool) : Bool × Bool :=
  if already then (false, already) else (matched, matched)

/-- Result of one `check_site` call: `ok state notified` is the `Ok(())`
return (`notified = some p` iff a pushover notification with priority `p` was
attempted), `err state` is an `Err` propagated by `?`, and `panicked state` is
the `expect("no screenshots?")` panic (reachable only with
`max_retries = 0`).  The carried state is the site state as mutated so far. -/
inductive CheckOutcome (Img : Type) where
  | ok (site : WebsiteData Img) (notified : Option Nat)
  | err (site : WebsiteData Img)
  | panicked (site : WebsiteData Img)
deriving DecidableEq, Repr

/-- The site state carried by any outcome. -/
def CheckOutcome.state {Img : Type} : CheckOutcome Img → WebsiteData Img
  | .ok s _ => s
  | .err s => s
  | .panicked s => s

/-- The notification attempted by the check, if any. -/
def CheckOutcome.notification {Img : Type} : CheckOutcome Img → Option Nat
  | .ok _ n => n
  | .err _ => none
  | .panicked _ => none

/-- Whether the check aborted with a propagated error. -/
def CheckOutcome.isErr {Img : Type} : CheckOutcome Img → Bool
  | .ok _ _ => false
  | .err _ => true
  | .panicked _ => false

/-- The tail of `check_site` from the page-text fetch on (`main.rs:238-273`):
keyword scan and latch, quiet-cycle handling, first-run suppression, and the
`total_runs > 3 && should_notify()` notification guard (note the
short-circuit: `should_notify` is not called when `total_runs ≤ 3`). -/
def check_site_scored {Img : Type} (env : CheckEnv Img) (first_run : Bool)
    (shots : List (ℚ × Img)) (s3 : WebsiteData Img) : CheckOutcome Img :=
  match env.text with
  | none => .err s3
  | some raw =>
    let matched := merch_scan (strLower raw)
    let step := merch_step s3.merch_already_detected matched
    let newly := step.1
    let s4 := { s3 with merch_already_detected := step.2 }
    let all_changed := shots.all fun p => decide (p.1 < s4.threshold)
    if !all_changed && !newly then .ok (nothing_changed s4) none
    else if first_run then .ok s4 none
    else if 3 < s4.total_runs then
      let n := should_send_notification s4
      .ok n.2 (if n.1 then some (if newly then 1 else 0) else none)
    else .ok s4 none

/-- The body of `check_site` after the cooldown gate and the `total_runs`
increment (`main.rs:210-235`): record the first-run flag, `take` the previous
image out of the state, run the confirmation loop, abort on a render error,
panic on an empty attempt list, otherwise store the best-scoring capture as
the new `last_image` and continue. -/
def check_site_run {Img : Type} (env : CheckEnv Img) (s1 : WebsiteData Img) :
    CheckOutcome Img :=
  let first_run := s1.last_image.isNone
  let li := s1.last_image
  let s2 := { s1 with last_image := none }
  let shots := collect_shots env.cmp s2.threshold li env.atts 0 s2.max_retries
  if shots.2 then .err s2
  else
    match max_shot shots.1 with
    | none => .panicked s2
    | some best => check_site_scored env first_run shots.1
        { s2 with last_image := some best.2 }

/-- `check_site` (`main.rs:202-274`): gate on the cooldown, increment
`total_runs` (`u32`), then run the check body. -/
def check_site {Img : Type} (env : CheckEnv Img) (s0 : WebsiteData Img) :
    CheckOutcome Img :=
  let g := should_website_request s0
  if g.1 then
    check_site_run env { g.2 with total_runs := (g.2.total_runs + 1) % 4294967296 }
  else .ok g.2 none

/-- Renderer navigation events, for the cycle-level reset property. -/
inductive REvent where
  | gotoUrl (url : String)
  | gotoBlank
deriving DecidableEq, Repr

/-- The navigations performed on the shared page by one `check_site` call:
one `page.goto(site.url)` per `create_screenshot` attempt started (a failing
attempt still navigates first: the `goto` is its first operation).  A check
skipped by the cooldown gate performs none. -/
def check_trace {Img : Type} (env : CheckEnv Img) (s0 : WebsiteData Img) :
    List REvent :=
  let g := should_website_request s0
  if g.1 then
    let shots := collect_shots env.cmp g.2.threshold g.2.last_image env.atts 0
      g.2.max_retries
    List.replicate (shots.1.length + if shots.2 then 1 else 0)
      (REvent.gotoUrl s0.url)
  else []

/-- One scheduler cycle (`main.rs:185-199`): every site is checked in order,
then the renderer is sent to `about:blank` once, at cycle end. -/
def cycle_trace {Img : Type} (sites : List (CheckEnv Img × WebsiteData Img)) :
    List REvent :=
  (sites.map fun p => check_trace p.1 p.2).flatten ++ [REvent.gotoBlank]

/-- The per-site navigation blocks of a cycle. -/
def site_traces {Img : Type} (sites : List (CheckEnv Img × WebsiteData Img)) :
    List (List REvent) :=
  sites.map fun p => check_trace p.1 p.2

/-- Index in `cycle_trace` at which site `k`'s navigation block starts. -/
def block_start {Img : Type} (sites : List (CheckEnv Img × WebsiteData Img))
    (k : Nat) : Nat :=
  (((site_traces sites).take k).map List.length).sum

/-- Formalisation of the claimed between-sites reset: for every adjacent pair
of sites that both perform at least one navigation, some `gotoBlank` event
occurs in the cycle's event list at a position after the whole of site `k`'s
block and before the whole of site `k+1`'s block. -/
def blank_reset_between_all {Img : Type}
    (sites : List (CheckEnv Img × WebsiteData Img)) : Prop :=
  ∀ k < (site_traces sites).length - 1,
    (site_traces sites).getD k [] ≠ [] →
    (site_traces sites).getD (k + 1) [] ≠ [] →
    ∃ i < block_start sites (k + 1),
      block_start sites k + ((site_traces sites).getD k []).length ≤ i ∧
      (cycle_trace sites).get? i = some REvent.gotoBlank

/-- Whether the last collected attempt strictly exceeded the threshold
(executable form of the early-stop condition). -/
def last_exceeds {Img : Type} (thr : ℚ) (l : List (ℚ × Img)) : Bool :=
  match l.getLast? with
  | some p => decide (thr < p.1)
  | none => false

/-! ### Helper lemmas -/

/-- Closed form of the cooldown gate. -/
theorem gate_eq {Img : Type} (s : WebsiteData Img) :
    should_website_request s =
      (decide (s.current_cooldown ≤ 1),
        { s with current_cooldown := s.current_cooldown - 1 }) := by
  obtain ⟨u, sc, sel, w, thr, mr, li, mad, cs, cc, tc, tr⟩ := s
  cases cc with
  | zero => simp [should_website_request]
  | succ n =>
    simp only [should_website_request, Nat.succ_ne_zero, if_false,
      Nat.add_sub_cancel]
    rw [show (decide (n = 0)) = (decide (n + 1 ≤ 1)) from
      decide_eq_decide.mpr (by omega)]

/-- The gate result state, unconditionally. -/
theorem gate_state_eq {Img : Type} (s : WebsiteData Img) :
    (should_website_request s).2 =
      { s with current_cooldown := s.current_cooldown - 1 } := by
  rw [gate_eq]

/-- When the gate lets the check run, `check_site` runs the body on the gated,
run-counted state. -/
theorem check_site_of_gate {Img : Type} (env : CheckEnv Img)
    (s : WebsiteData Img) (hg : (should_website_request s).1 = true) :
    check_site env s = check_site_run env
      { s with
        current_cooldown := s.current_cooldown - 1
        total_runs := (s.total_runs + 1) % 4294967296 } := by
  rw [check_site, hg, gate_state_eq]
  rfl

/-- The `max_by` fold keeps a score at least as large as the accumulator and
every traversed element, and returns the accumulator or a traversed element. -/
theorem foldl_max_spec {Img : Type} (xs : List (ℚ × Img)) (acc : ℚ × Img) :
    acc.1 ≤ (xs.foldl (fun a y => if a.1 ≤ y.1 then y else a) acc).1 ∧
    (∀ q ∈ xs, q.1 ≤ (xs.foldl (fun a y => if a.1 ≤ y.1 then y else a) acc).1) ∧
    (xs.foldl (fun a y => if a.1 ≤ y.1 then y else a) acc = acc ∨
      xs.foldl (fun a y => if a.1 ≤ y.1 then y else a) acc ∈ xs) := by
  induction xs generalizing acc with
  | nil => simp
  | cons y ys ih =>
    obtain ⟨h1, h2, h3⟩ := ih (if acc.1 ≤ y.1 then y else acc)
    simp only [List.foldl_cons]
    refine ⟨?_, ?_, ?_⟩
    · refine le_trans ?_ h1
      split
      · rename_i hle; exact hle
      · exact le_refl _
    · intro q hq
      rcases List.mem_cons.mp hq with rfl | hq2
      · refine le_trans ?_ h1
        split
        · exact le_refl _
        · rename_i hle; exact le_of_not_le hle
      · exact h2 q hq2
    · rcases h3 with he | hm
      · rw [he]
        split
        · exact Or.inr (List.mem_cons_self _ _)
        · exact Or.inl rfl
      · exact Or.inr (List.mem_cons_of_mem _ hm)

/-- `max_shot` returns an element of its argument. -/
theorem max_shot_mem {Img : Type} {l : List (ℚ × Img)} {b : ℚ × Img}
    (h : max_shot l = some b) : b ∈ l := by
  match l with
  | [] => simp [max_shot] at h
  | x :: xs =>
    simp only [max_shot, Option.some.injEq] at h
    subst h
    rcases (foldl_max_spec xs x).2.2 with he | hm
    · rw [he]; exact List.mem_cons_self _ _
    · exact List.mem_cons_of_mem _ hm

/-- `max_shot` returns a maximal-score element. -/
theorem max_shot_le {Img : Type} {l : List (ℚ × Img)} {b : ℚ × Img}
    (h : max_shot l = some b) : ∀ q ∈ l, q.1 ≤ b.1 := by
  match l with
  | [] => simp [max_shot] at h
  | x :: xs =>
    simp only [max_shot, Option.some.injEq] at h
    subst h
    intro q hq
    rcases List.mem_cons.mp hq with rfl | hq2
    · exact (foldl_max_spec xs q).1
    · exact (foldl_max_spec xs x).2.1 q hq2

/-- The collected list is never longer than the attempt budget. -/
theorem collect_shots_length {Img : Type} (cmp : Img → Img → Option ℚ)
    (thr : ℚ) (li : Option Img) (atts : Nat → Option Img) :
    ∀ fuel i, (collect_shots cmp thr li atts i fuel).1.length ≤ fuel := by
  intro fuel
  induction fuel with
  | zero => intro i; simp [collect_shots]
  | succ n ih =>
    intro i
    cases h : atts i with
    | none => simp [collect_shots, h]
    | some img =>
      simp only [collect_shots, h]
      split
      · simp
      · simpa using Nat.succ_le_succ (ih (i + 1))

/-- Every collected score except possibly the last one failed to exceed the
threshold (otherwise the loop would have stopped there). -/
theorem collect_shots_dropLast {Img : Type} (cmp : Img → Img → Option ℚ)
    (thr : ℚ) (li : Option Img) (atts : Nat → Option Img) :
    ∀ fuel i p, p ∈ (collect_shots cmp thr li atts i fuel).1.dropLast →
      ¬ thr < p.1 := by
  intro fuel
  induction fuel with
  | zero => intro i p hp; simp [collect_shots] at hp
  | succ n ih =>
    intro i p hp
    cases h : atts i with
    | none => simp [collect_shots, h] at hp
    | some img =>
      simp only [collect_shots, h] at hp
      split at hp
      · simp at hp
      · rename_i hstop
        rcases hrest : (collect_shots cmp thr li atts (i + 1) n).1
          with _ | ⟨a, as⟩
        · rw [hrest] at hp
          simp at hp
        · rw [hrest, List.dropLast_cons_of_ne_nil (by simp)] at hp
          rcases List.mem_cons.mp hp with rfl | hp2
          · exact hstop
          · exact ih (i + 1) p (by rw [hrest]; exact hp2)

/-- With at least one attempt allowed and no render error, at least one
capture is collected. -/
theorem collect_shots_ne_nil {Img : Type} (cmp : Img → Img → Option ℚ)
    (thr : ℚ) (li : Option Img) (atts : Nat → Option Img) {fuel i : Nat}
    (hf : 1 ≤ fuel)
    (he : (collect_shots cmp thr li atts i fuel).2 = false) :
    (collect_shots cmp thr li atts i fuel).1 ≠ [] := by
  cases fuel with
  | zero => omega
  | succ n =>
    cases h : atts i with
    | none => simp [collect_shots, h] at he
    | some img =>
      simp only [collect_shots, h]
      split <;> simp

/-- If the loop stopped before exhausting its budget without an error, the
last collected score strictly exceeded the threshold. -/
theorem collect_shots_early_stop {Img : Type} (cmp : Img → Img → Option ℚ)
    (thr : ℚ) (li : Option Img) (atts : Nat → Option Img) :
    ∀ fuel i, (collect_shots cmp thr li atts i fuel).2 = false →
      (collect_shots cmp thr li atts i fuel).1.length < fuel →
      last_exceeds thr (collect_shots cmp thr li atts i fuel).1 = true := by
  intro fuel
  induction fuel with
  | zero => intro i _ hl; simp [collect_shots] at hl
  | succ n ih =>
    intro i he hl
    cases h : atts i with
    | none => simp [collect_shots, h] at he
    | some img =>
      simp only [collect_shots, h] at he hl ⊢
      by_cases hstop : thr < screenshot_score cmp li img
      · rw [if_pos hstop]
        simp only [last_exceeds, List.getLast?_singleton]
        simpa using hstop
      · rw [if_neg hstop] at he hl ⊢
        simp only at he
        simp only [List.length_cons] at hl
        have hlen : (collect_shots cmp thr li atts (i + 1) n).1.length < n := by
          omega
        have hne : (collect_shots cmp thr li atts (i + 1) n).1 ≠ [] :=
          collect_shots_ne_nil cmp thr li atts (by omega) he
        have hres := ih (i + 1) he hlen
        rcases hrest : (collect_shots cmp thr li atts (i + 1) n).1
          with _ | ⟨a, as⟩
        · exact absurd hrest hne
        · rw [hrest] at hres
          simpa [last_exceeds, List.getLast?_cons_cons] using hres

/-- `containsSub` decides substring occurrence. -/
theorem containsSub_iff (hay need : List Char) :
    containsSub hay need = true ↔ need <:+: hay := by
  induction hay with
  | nil =>
    simp only [containsSub, List.isEmpty_iff]
    constructor
    · rintro rfl; exact List.infix_rfl
    · intro h; exact List.eq_nil_of_infix_nil h
  | cons c t ih =>
    simp only [containsSub, Bool.or_eq_true, List.isPrefixOf_iff_prefix, ih,
      List.infix_cons_iff]

/-- A check never navigates to the blank page itself. -/
theorem check_trace_no_blank {Img : Type} (env : CheckEnv Img)
    (s : WebsiteData Img) : REvent.gotoBlank ∉ check_trace env s := by
  intro hmem
  simp only [check_trace] at hmem
  split at hmem
  · simp [List.mem_replicate] at hmem
  · simp at hmem

/-! ### C8 — the cooldown gate -/

/-- **C8**: `shouldRun` returns true and leaves the state unchanged when
`cooldownRemaining = 0`; otherwise it decrements `cooldownRemaining` by one
and returns true iff the decrement reached 0 — equivalently it returns true
iff `cooldownRemaining ≤ 1`, and the state update is always the floored
decrement.  Moreover a gated-off site is skipped entirely: `check_site`
returns at once with only the decrement applied, and performs no render
(empty navigation trace), hence no comparison. -/
theorem should_run_cooldown_spec :
    (∀ (Img : Type) (s : WebsiteData Img),
      should_website_request s =
        (decide (s.current_cooldown ≤ 1),
          { s with current_cooldown := s.current_cooldown - 1 })) ∧
    (∀ (Img : Type) (env : CheckEnv Img) (s : WebsiteData Img),
      (should_website_request s).1 = false →
        check_site env s =
          .ok { s with current_cooldown := s.current_cooldown - 1 } none ∧
        check_trace env s = []) := by
  refine ⟨fun Img s => gate_eq s, fun Img env s h => ⟨?_, ?_⟩⟩
  · rw [check_site, h]
    simp only [Bool.false_eq_true, if_false, gate_state_eq]
  · rw [check_trace, h]
    simp

/-- Concrete input for the C8 witness: a site three cycles into a cooldown. -/
def c8_site : WebsiteData Nat :=
  { url := "https://a.example", script := [], screenshot_selector := none,
    wait := 0, threshold := 0, max_retries := 3, last_image := some 5,
    merch_already_detected := false, changes_stacking := 0,
    current_cooldown := 5, total_cooldowns := 1, total_runs := 9 }

/-- Environment for the C8 witness (never consulted: the site is gated off). -/
def c8_env : CheckEnv Nat :=
  { atts := fun _ => none, cmp := fun _ _ => none, text := none }

/-- Witness for C8 at `current_cooldown = 5`: the check is skipped, only the
decrement happens, and no navigation is performed. -/
theorem should_run_cooldown_spec_witness :
    check_site c8_env c8_site =
      .ok { c8_site with current_cooldown := c8_site.current_cooldown - 1 }
        none ∧
    check_trace c8_env c8_site = [] :=
  should_run_cooldown_spec.2 Nat c8_env c8_site (by decide)

/-! ### C2 — the backoff trigger -/

/-- **C2 (amended)**: registering a reportable outcome with a prior streak of
0, 1 or 2 is `Allowed` and changes nothing but the streak; with a prior
streak of 3 it is `Suppressed`, increments `cooldownsImposed`, resets the
streak, and sets `cooldownRemaining` to `3 ^ cooldownsImposed` **reduced
`mod 2^16`** (the field is a `u16`).  The stored value equals `3 ^
cooldownsImposed` exactly as long as the new `cooldownsImposed` is at most 10
(3, 9, 27, ... 59049); beyond that the `u16` wraps, so the claim's
"for every value of cooldownsImposed" fails (see the counterexample). -/
theorem should_send_notification_backoff (Img : Type) (s : WebsiteData Img) :
    (s.changes_stacking ≤ 2 →
      should_send_notification s =
        (true, { s with changes_stacking := s.changes_stacking + 1 })) ∧
    (s.changes_stacking = 3 →
      should_send_notification s =
        (false,
          { s with
            total_cooldowns := (s.total_cooldowns + 1) % 4294967296
            current_cooldown := 3 ^ ((s.total_cooldowns + 1) % 4294967296) % 65536
            changes_stacking := 0 })) ∧
    (s.changes_stacking = 3 → s.total_cooldowns ≤ 9 →
      (should_send_notification s).1 = false ∧
      (should_send_notification s).2.total_cooldowns = s.total_cooldowns + 1 ∧
      (should_send_notification s).2.current_cooldown =
        3 ^ (s.total_cooldowns + 1) ∧
      (should_send_notification s).2.changes_stacking = 0) := by
  refine ⟨fun h => ?_, fun h => ?_, fun h htc => ?_⟩
  · have h256 : (s.changes_stacking + 1) % 256 = s.changes_stacking + 1 :=
      Nat.mod_eq_of_lt (by omega)
    rw [should_send_notification]
    simp only [h256]
    rw [if_neg (by omega)]
  · have h256 : (s.changes_stacking + 1) % 256 = 4 := by rw [h]
    rw [should_send_notification]
    simp only [h256]
    rw [if_pos (by omega)]
  · have h32 : (s.total_cooldowns + 1) % 4294967296 = s.total_cooldowns + 1 :=
      Nat.mod_eq_of_lt (by omega)
    have hpow : 3 ^ (s.total_cooldowns + 1) % 65536 =
        3 ^ (s.total_cooldowns + 1) := by
      apply Nat.mod_eq_of_lt
      calc 3 ^ (s.total_cooldowns + 1) ≤ 3 ^ 10 :=
            Nat.pow_le_pow_right (by omega) (by omega)
        _ < 65536 := by norm_num
    have h256 : (s.changes_stacking + 1) % 256 = 4 := by rw [h]
    rw [should_send_notification]
    simp only [h256, h32, hpow]
    rw [if_pos (by omega)]
    exact ⟨rfl, rfl, rfl, rfl⟩

/-- Concrete input for the C2 witness, allowed case: prior streak 1. -/
def c2_allow : WebsiteData Nat :=
  { url := "https://a.example", script := [], screenshot_selector := none,
    wait := 0, threshold := 0, max_retries := 3, last_image := some 5,
    merch_already_detected := false, changes_stacking := 1,
    current_cooldown := 0, total_cooldowns := 0, total_runs := 9 }

/-- Concrete input for the C2 witness, backoff case: prior streak 3, no
cooldown imposed yet. -/
def c2_backoff : WebsiteData Nat :=
  { c2_allow with changes_stacking := 3 }

/-- Witness for C2: the allowed case at streak 1 and the backoff case at
streak 3 with `cooldownsImposed` going 0 to 1 and `cooldownRemaining = 3^1`. -/
theorem should_send_notification_backoff_witness :
    should_send_notification c2_allow =
      (true, { c2_allow with changes_stacking := c2_allow.changes_stacking + 1 }) ∧
    ((should_send_notification c2_backoff).1 = false ∧
      (should_send_notification c2_backoff).2.total_cooldowns =
        c2_backoff.total_cooldowns + 1 ∧
      (should_send_notification c2_backoff).2.current_cooldown =
        3 ^ (c2_backoff.total_cooldowns + 1) ∧
      (should_send_notification c2_backoff).2.changes_stacking = 0) :=
  ⟨(should_send_notification_backoff Nat c2_allow).1 (by decide),
    (should_send_notification_backoff Nat c2_backoff).2.2 (by decide) (by decide)⟩

/-- Concrete input refuting C2 as stated: prior streak 3 with ten cooldowns
already imposed. -/
def c2_wrap : WebsiteData Nat :=
  { c2_allow with changes_stacking := 3, total_cooldowns := 10 }

/-- Counterexample to C2 as stated: on the backoff trigger that raises
`cooldownsImposed` to 11, the stored `u16` cooldown is `3^11 mod 2^16 =
46075`, not `3^11 = 177147`. -/
theorem cooldown_power_wraps_cex :
    c2_wrap.changes_stacking = 3 ∧
    (should_send_notification c2_wrap).1 = false ∧
    (should_send_notification c2_wrap).2.total_cooldowns =
      c2_wrap.total_cooldowns + 1 ∧
    (should_send_notification c2_wrap).2.current_cooldown = 46075 ∧
    (should_send_notification c2_wrap).2.current_cooldown ≠
      3 ^ ((should_send_notification c2_wrap).2.total_cooldowns) := by
  refine ⟨rfl, rfl, rfl, rfl, by decide⟩

/-! ### C3 — descriptor validation -/

/-- **C3 (code bug)**: `WebsiteDataBuilder::build` checks
`threshold < 0.0 || threshold > 1.0`, so it accepts a threshold of exactly
`0.0` or exactly `1.0` and the core runs with it — contradicting both the
claim and the builder's own panic message ("threshold has to be > 0 & < 1").
This theorem evaluates `build` at the failing inputs. -/
theorem build_accepts_boundary_thresholds :
    (build Nat { wd ("https://example.com") with threshold := 0 }).isSome
      = true ∧
    ((build Nat { wd ("https://example.com") with threshold := 0 }).map
      fun d => d.threshold) = some 0 ∧
    (build Nat { wd ("https://example.com") with threshold := 1 }).isSome
      = true ∧
    (build Nat (wd (""))).isSome = false ∧
    (build Nat { wd ("https://example.com") with max_confirms := 0 }).isSome
      = false := by
  refine ⟨by decide, by decide, by decide, by decide, by decide⟩

/-! ### C7 — the confirmation loop -/

/-- Environment realising the spec's scenario: attempt 1 scores `0.70`,
attempt 2 scores `0.995`. -/
def scenario_env : CheckEnv Nat :=
  { atts := fun i => some (i + 1)
    cmp := fun a _ => if a = 1 then some (7 / 10) else some (199 / 200)
    text := some "" }

/-- **C7**: the confirmation loop makes at most `maxConfirmations` attempts;
every collected score except possibly the last failed to exceed the
threshold; when the loop stopped early (no error, fewer collected than the
budget) the last collected score strictly exceeded the threshold, and that
early-stopping attempt is part of the collected list; `allScoresBelowThreshold`
(the `all` over the collected list) holds iff every collected score is
strictly below the threshold.  In the spec's scenario — scores
`[0.70, 0.995]`, threshold `0.99`, budget 3 — the loop stops after the second
attempt and `allScoresBelowThreshold` is false. -/
theorem confirmation_loop_spec :
    (∀ (Img : Type) (cmp : Img → Img → Option ℚ) (thr : ℚ) (li : Option Img)
        (atts : Nat → Option Img) (fuel i : Nat),
      (collect_shots cmp thr li atts i fuel).1.length ≤ fuel ∧
      (∀ p ∈ (collect_shots cmp thr li atts i fuel).1.dropLast, ¬ thr < p.1) ∧
      ((collect_shots cmp thr li atts i fuel).2 = false →
        (collect_shots cmp thr li atts i fuel).1.length < fuel →
        last_exceeds thr (collect_shots cmp thr li atts i fuel).1 = true) ∧
      (((collect_shots cmp thr li atts i fuel).1.all
          fun p => decide (p.1 < thr)) = true ↔
        ∀ p ∈ (collect_shots cmp thr li atts i fuel).1, p.1 < thr)) ∧
    ((collect_shots scenario_env.cmp (99 / 100 : ℚ) (some 0) scenario_env.atts
        0 3).1.map Prod.fst = [7 / 10, 199 / 200] ∧
      (collect_shots scenario_env.cmp (99 / 100 : ℚ) (some 0) scenario_env.atts
        0 3).2 = false ∧
      ((collect_shots scenario_env.cmp (99 / 100 : ℚ) (some 0)
          scenario_env.atts 0 3).1.all
        fun p => decide (p.1 < (99 / 100 : ℚ))) = false) := by
  constructor
  · intro Img cmp thr li atts fuel i
    refine ⟨collect_shots_length cmp thr li atts fuel i,
      fun p hp => collect_shots_dropLast cmp thr li atts fuel i p hp,
      collect_shots_early_stop cmp thr li atts fuel i, ?_⟩
    simp [List.all_eq_true]
  · norm_num [collect_shots, screenshot_score, scenario_env]

/-- Environment for the C7 witness: every capture scores 5 against the
previous image (threshold 1, so the very first attempt exceeds it). -/
def c7_env : CheckEnv Nat :=
  { atts := fun i => some (i + 1), cmp := fun _ _ => some 5, text := some "" }

/-- Witness for C7: with threshold 1 and constant score 5 the loop stops
after one of three allowed attempts and the early-stopping score exceeds the
threshold. -/
theorem confirmation_loop_spec_witness :
    (collect_shots c7_env.cmp (1 : ℚ) (some 0) c7_env.atts 0 3).1.length ≤ 3 ∧
    last_exceeds (1 : ℚ)
      (collect_shots c7_env.cmp (1 : ℚ) (some 0) c7_env.atts 0 3).1 = true :=
  ⟨(confirmation_loop_spec.1 Nat c7_env.cmp 1 (some 0) c7_env.atts 3 0).1,
    (confirmation_loop_spec.1 Nat c7_env.cmp 1 (some 0) c7_env.atts 3 0).2.2.1
      (by decide) (by decide)⟩

/-! ### C5 — the blank-page reset -/

/-- Decidability of the formalised between-sites reset property, so that it
can be refuted on concrete inputs by evaluation. -/
instance blank_reset_between_all_decidable {Img : Type}
    (sites : List (CheckEnv Img × WebsiteData Img)) :
    Decidable (blank_reset_between_all sites) := by
  unfold blank_reset_between_all
  infer_instance

/-- **C5 (amended)**: in every cycle the renderer is returned to the neutral
blank page exactly once, at cycle end, after all site checks; no check emits
a blank navigation itself, so in particular there is **no** blank-page reset
between consecutive site checks (the claim's between-sites requirement fails,
see the counterexample). -/
theorem cycle_blank_reset_only_at_end :
    ∀ (Img : Type) (sites : List (CheckEnv Img × WebsiteData Img)),
      (cycle_trace sites).count REvent.gotoBlank = 1 ∧
      (cycle_trace sites).getLast? = some REvent.gotoBlank ∧
      ∀ t ∈ site_traces sites, REvent.gotoBlank ∉ t := by
  intro Img sites
  have hnb : ∀ t ∈ site_traces sites, REvent.gotoBlank ∉ t := by
    intro t ht
    simp only [site_traces, List.mem_map] at ht
    obtain ⟨p, _, rfl⟩ := ht
    exact check_trace_no_blank p.1 p.2
  refine ⟨?_, ?_, hnb⟩
  · rw [cycle_trace, List.count_append]
    have hz : (List.map (fun p => check_trace p.1 p.2) sites).flatten.count
        REvent.gotoBlank = 0 := by
      rw [List.count_flatten]
      apply List.sum_eq_zero
      intro x hx
      simp only [List.map_map, List.mem_map, Function.comp] at hx
      obtain ⟨p, hp, rfl⟩ := hx
      exact List.count_eq_zero.mpr (check_trace_no_blank p.1 p.2)
    rw [hz]
    simp
  · rw [cycle_trace]
    exact List.getLast?_concat _

/-- Shared environment for the C5 counterexample: captures succeed and score
1 against the stored image. -/
def c5_env : CheckEnv Nat :=
  { atts := fun _ => some 1, cmp := fun _ _ => some 1, text := some "" }

/-- First site of the C5 counterexample (threshold 0, so the first capture
already exceeds it and the check performs exactly one navigation). -/
def c5_site_a : WebsiteData Nat :=
  { url := "https://a.example", script := [], screenshot_selector := none,
    wait := 0, threshold := 0, max_retries := 3, last_image := some 0,
    merch_already_detected := false, changes_stacking := 0,
    current_cooldown := 0, total_cooldowns := 0, total_runs := 4 }

/-- Second site of the C5 counterexample. -/
def c5_site_b : WebsiteData Nat :=
  { c5_site_a with url := "https://b.example" }

/-- Witness for C5 at a concrete two-site cycle: exactly one blank reset, at
the very end, and a site's own check emits none. -/
theorem cycle_blank_reset_only_at_end_witness :
    (cycle_trace [(c5_env, c5_site_a), (c5_env, c5_site_b)]).count
      REvent.gotoBlank = 1 ∧
    (cycle_trace [(c5_env, c5_site_a), (c5_env, c5_site_b)]).getLast? =
      some REvent.gotoBlank ∧
    REvent.gotoBlank ∉ check_trace c5_env c5_site_a :=
  ⟨(cycle_blank_reset_only_at_end Nat
      [(c5_env, c5_site_a), (c5_env, c5_site_b)]).1,
    (cycle_blank_reset_only_at_end Nat
      [(c5_env, c5_site_a), (c5_env, c5_site_b)]).2.1,
    (cycle_blank_reset_only_at_end Nat
      [(c5_env, c5_site_a), (c5_env, c5_site_b)]).2.2
      (check_trace c5_env c5_site_a) (by decide)⟩

/-- Counterexample to C5 as stated: in a cycle over two active sites the
event sequence is `goto a, goto b, blank` — both checks navigate, yet no
blank-page reset occurs between them; the only reset is at cycle end. -/
theorem no_blank_between_sites_cex :
    cycle_trace [(c5_env, c5_site_a), (c5_env, c5_site_b)] =
      [REvent.gotoUrl ("https://a.example"),
        REvent.gotoUrl ("https://b.example"), REvent.gotoBlank] ∧
    check_trace c5_env c5_site_a ≠ [] ∧
    check_trace c5_env c5_site_b ≠ [] ∧
    ¬ blank_reset_between_all [(c5_env, c5_site_a), (c5_env, c5_site_b)] := by
  refine ⟨by decide, by decide, by decide, by decide⟩

/-! ### C1 — state after a failed check -/

/-- A nonempty shot list has a `max_shot`. -/
theorem max_shot_isSome {Img : Type} {l : List (ℚ × Img)} (h : l ≠ []) :
    ∃ b, max_shot l = some b := by
  cases l with
  | nil => exact absurd rfl h
  | cons x xs => exact ⟨_, rfl⟩

/-- **C1 (amended)**: when a check aborts with a render/navigation (or
page-text) error, the cooldown and keyword state is indeed untouched —
`keywordAlreadySeen`, `missedNotificationStreak` and `cooldownsImposed` keep
their values, and `cooldownRemaining` changes only by the normal gate
decrement — but the check is **not** free of partial mutation: `totalRuns`
has already been incremented, and `lastImage` has been `take`n out (it is
`none` if the error hit a render attempt, or already replaced by one of this
check's captures if the error hit the page-text fetch). -/
theorem check_site_error_partial_mutation (Img : Type) (env : CheckEnv Img)
    (s s1 : WebsiteData Img) (h : check_site env s = .err s1) :
    s1.merch_already_detected = s.merch_already_detected ∧
    s1.changes_stacking = s.changes_stacking ∧
    s1.total_cooldowns = s.total_cooldowns ∧
    s1.current_cooldown = s.current_cooldown - 1 ∧
    s1.total_runs = (s.total_runs + 1) % 4294967296 ∧
    s1.url = s.url ∧
    s1.threshold = s.threshold ∧
    (s1.last_image = none ∨
      s1.last_image ∈
        ((collect_shots env.cmp s.threshold s.last_image env.atts 0
          s.max_retries).1.map fun p => some p.2)) := by
  by_cases hg : (should_website_request s).1 = true
  · rw [check_site_of_gate env s hg] at h
    simp only [check_site_run] at h
    split at h
    · rename_i herr
      rw [CheckOutcome.err.injEq] at h
      subst h
      exact ⟨rfl, rfl, rfl, rfl, rfl, rfl, rfl, Or.inl rfl⟩
    · rename_i herr
      split at h
      · exact absurd h (by simp)
      · rename_i b hb
        simp only [check_site_scored] at h
        split at h
        · rw [CheckOutcome.err.injEq] at h
          subst h
          refine ⟨rfl, rfl, rfl, rfl, rfl, rfl, rfl, Or.inr ?_⟩
          simp only [List.mem_map]
          exact ⟨b, max_shot_mem hb, rfl⟩
        · split at h
          · exact absurd h (by simp)
          · split at h
            · exact absurd h (by simp)
            · split at h
              · exact absurd h (by simp)
              · exact absurd h (by simp)
  · rw [check_site] at h
    rw [Bool.not_eq_true] at hg
    rw [hg] at h
    simp at h

/-- Environment for the C1 witness and counterexample: the very first render
attempt fails. -/
def c1_env : CheckEnv Nat :=
  { atts := fun _ => none, cmp := fun _ _ => none, text := some "" }

/-- Site for the C1 witness and counterexample: has a stored image and some
accumulated state. -/
def c1_site : WebsiteData Nat :=
  { url := "https://a.example", script := [], screenshot_selector := none,
    wait := 0, threshold := 0, max_retries := 3, last_image := some 5,
    merch_already_detected := true, changes_stacking := 2,
    current_cooldown := 0, total_cooldowns := 1, total_runs := 6 }

/-- The state in which the failed C1 check leaves `c1_site`. -/
def c1_after : WebsiteData Nat :=
  { c1_site with last_image := none, total_runs := 7 }

/-- Witness for C1: on the failing check the keyword/streak/cooldown fields
survive, `totalRuns` is bumped and `lastImage` is gone. -/
theorem check_site_error_partial_mutation_witness :
    c1_after.merch_already_detected = c1_site.merch_already_detected ∧
    c1_after.changes_stacking = c1_site.changes_stacking ∧
    c1_after.total_cooldowns = c1_site.total_cooldowns ∧
    c1_after.current_cooldown = c1_site.current_cooldown - 1 ∧
    c1_after.total_runs = (c1_site.total_runs + 1) % 4294967296 ∧
    c1_after.url = c1_site.url ∧
    c1_after.threshold = c1_site.threshold ∧
    (c1_after.last_image = none ∨
      c1_after.last_image ∈
        ((collect_shots c1_env.cmp c1_site.threshold c1_site.last_image
          c1_env.atts 0 c1_site.max_retries).1.map fun p => some p.2)) :=
  check_site_error_partial_mutation Nat c1_env c1_site c1_after (by decide)

/-- Counterexample to C1 as stated: after the failed check `totalRuns` has
changed and `lastImage` has been cleared — the state is not left unmodified. -/
theorem check_site_error_mutates_state_cex :
    (check_site c1_env c1_site).isErr = true ∧
    (check_site c1_env c1_site).state.total_runs ≠ c1_site.total_runs ∧
    (check_site c1_env c1_site).state.last_image ≠ c1_site.last_image := by
  refine ⟨by decide, by decide, by decide⟩

/-! ### C6 — the first-ever check -/

/-- **C6**: a completed first-ever check (no stored image at the start) never
produces a notification, whatever the scores and keywords, but it does
establish state: the new `lastImage` is one of this check's captures, and the
keyword latch is set when a keyword matches the page text. -/
theorem first_run_never_notifies (Img : Type) (env : CheckEnv Img)
    (s : WebsiteData Img) (raw : String)
    (hg : (should_website_request s).1 = true)
    (hfirst : s.last_image = none)
    (hmr : 1 ≤ s.max_retries)
    (he : (collect_shots env.cmp s.threshold none env.atts 0
      s.max_retries).2 = false)
    (ht : env.text = some raw) :
    (check_site env s).notification = none ∧
    ((check_site env s).state.last_image ∈
      ((collect_shots env.cmp s.threshold none env.atts 0
        s.max_retries).1.map fun p => some p.2)) ∧
    (merch_scan (strLower raw) = true →
      (check_site env s).state.merch_already_detected = true) := by
  obtain ⟨b, hb⟩ := max_shot_isSome
    (collect_shots_ne_nil env.cmp s.threshold none env.atts hmr he)
  have hmem : some b.2 ∈
      ((collect_shots env.cmp s.threshold none env.atts 0
        s.max_retries).1.map fun p => some p.2) := by
    simp only [List.mem_map]
    exact ⟨b, max_shot_mem hb, rfl⟩
  rw [check_site_of_gate env s hg]
  simp only [check_site_run, hfirst]
  rw [if_neg (by simp [he]), hb]
  simp only [Option.isNone_none, check_site_scored, ht]
  split
  · refine ⟨rfl, hmem, fun hm => ?_⟩
    simp only [CheckOutcome.state, nothing_changed, merch_step]
    split
    · assumption
    · exact hm
  · rw [if_pos trivial]
    refine ⟨rfl, hmem, fun hm => ?_⟩
    simp only [CheckOutcome.state, merch_step]
    split
    · assumption
    · exact hm

/-- Environment for the C6 witness: captures succeed (the score is the forced
first-run `1.0`), the page text contains the keyword `shop`. -/
def c6_env : CheckEnv Nat :=
  { atts := fun i => some (i + 1)
    cmp := fun _ _ => none
    text := some "visit our SHOP today" }

/-- Site for the C6 witness: no stored image yet. -/
def c6_site : WebsiteData Nat :=
  { url := "https://a.example", script := [], screenshot_selector := none,
    wait := 0, threshold := 0, max_retries := 3, last_image := none,
    merch_already_detected := false, changes_stacking := 0,
    current_cooldown := 0, total_cooldowns := 0, total_runs := 100 }

/-- Witness for C6: despite `totalRuns` being far past the startup guard and
a keyword match, the first-ever check notifies nothing, stores a capture and
flips the latch. -/
theorem first_run_never_notifies_witness :
    (check_site c6_env c6_site).notification = none ∧
    ((check_site c6_env c6_site).state.last_image ∈
      ((collect_shots c6_env.cmp c6_site.threshold none c6_env.atts 0
        c6_site.max_retries).1.map fun p => some p.2)) ∧
    (merch_scan (strLower ("visit our SHOP today")) = true →
      (check_site c6_env c6_site).state.merch_already_detected = true) :=
  first_run_never_notifies Nat c6_env c6_site ("visit our SHOP today")
    (by decide) (by decide) (by decide) (by decide) (by decide)

/-! ### C9 — the stored capture -/

/-- `should_send_notification` touches only the streak and cooldown fields. -/
theorem ssn_preserves {Img : Type} (x : WebsiteData Img) :
    (should_send_notification x).2.last_image = x.last_image ∧
    (should_send_notification x).2.merch_already_detected =
      x.merch_already_detected ∧
    (should_send_notification x).2.total_runs = x.total_runs := by
  simp only [should_send_notification]
  split <;> exact ⟨rfl, rfl, rfl⟩

/-- **C9**: a check that completes (returns `Ok`) stores, as the new
`lastImage`, a capture collected during this check whose score is maximal
among all collected attempts (including the early-stopping one). -/
theorem last_image_best_capture (Img : Type) (env : CheckEnv Img)
    (s s5 : WebsiteData Img) (n : Option Nat) (b : ℚ × Img)
    (hg : (should_website_request s).1 = true)
    (hb : max_shot (collect_shots env.cmp s.threshold s.last_image env.atts 0
      s.max_retries).1 = some b)
    (h : check_site env s = .ok s5 n) :
    s5.last_image = some b.2 ∧
    b ∈ (collect_shots env.cmp s.threshold s.last_image env.atts 0
      s.max_retries).1 ∧
    ((collect_shots env.cmp s.threshold s.last_image env.atts 0
      s.max_retries).1.all fun q => decide (q.1 ≤ b.1)) = true := by
  refine ⟨?_, max_shot_mem hb, ?_⟩
  · rw [check_site_of_gate env s hg] at h
    simp only [check_site_run] at h
    split at h
    · simp at h
    · rw [hb] at h
      simp only [check_site_scored] at h
      split at h
      · simp at h
      · split at h
        · rw [CheckOutcome.ok.injEq] at h
          rw [← h.1]
          simp [nothing_changed]
        · split at h
          · rw [CheckOutcome.ok.injEq] at h
            rw [← h.1]
          · split at h
            · rw [CheckOutcome.ok.injEq] at h
              rw [← h.1, (ssn_preserves _).1]
            · rw [CheckOutcome.ok.injEq] at h
              rw [← h.1]
  · rw [List.all_eq_true]
    intro q hq
    exact decide_eq_true (max_shot_le hb q hq)

/-- Environment for the C9 witness: three captures scoring 1, 2 and 3. -/
def c9_env : CheckEnv Nat :=
  { atts := fun i => some (i + 1)
    cmp := fun a _ => some a
    text := some "" }

/-- Site for the C9 witness: threshold 5, so no attempt stops the loop early
and all three captures are collected. -/
def c9_site : WebsiteData Nat :=
  { url := "https://a.example", script := [], screenshot_selector := none,
    wait := 0, threshold := 5, max_retries := 3, last_image := some 0,
    merch_already_detected := false, changes_stacking := 0,
    current_cooldown := 0, total_cooldowns := 0, total_runs := 1 }

/-- The state in which the C9 witness check leaves `c9_site`. -/
def c9_after : WebsiteData Nat :=
  { c9_site with last_image := some 3, total_runs := 2 }

/-- Witness for C9: of the captures scoring 1, 2, 3, the 3-scoring one is
stored. -/
theorem last_image_best_capture_witness :
    c9_after.last_image = some ((3 : ℚ), (3 : Nat)).2 ∧
    ((3 : ℚ), (3 : Nat)) ∈ (collect_shots c9_env.cmp c9_site.threshold
      c9_site.last_image c9_env.atts 0 c9_site.max_retries).1 ∧
    ((collect_shots c9_env.cmp c9_site.threshold c9_site.last_image
      c9_env.atts 0 c9_site.max_retries).1.all
        fun q => decide (q.1 ≤ ((3 : ℚ), (3 : Nat)).1)) = true :=
  last_image_best_capture Nat c9_env c9_site c9_after none ((3 : ℚ), 3)
    (by decide) (by decide) (by decide)

/-! ### C10 — keyword detection and the latch -/

/-- **C10**: the keyword scan is a substring match over the lowercased page
text, true iff some configured keyword occurs in it; the per-check latch step
reports a match as newly detected exactly when the latch was unset, and sets
the latch to (old ∨ match); across any `check_site` call the latch never
falls back from true (it is permanent for the process lifetime), and a
completed check with the latch unset records exactly the scan result. -/
theorem keyword_detection_spec :
    (∀ raw : String, (merch_scan (strLower raw) = true ↔
      ∃ k ∈ MERCH_KEYWORDS, k.toList <:+: strLower raw)) ∧
    (∀ already matched : Bool,
      merch_step already matched = (!already && matched, already || matched)) ∧
    (∀ (Img : Type) (env : CheckEnv Img) (s : WebsiteData Img),
      s.merch_already_detected = true →
      (check_site env s).state.merch_already_detected = true) ∧
    (∀ (Img : Type) (env : CheckEnv Img) (s s5 : WebsiteData Img)
        (n : Option Nat) (raw : String),
      (should_website_request s).1 = true →
      s.merch_already_detected = false → env.text = some raw →
      check_site env s = .ok s5 n →
      s5.merch_already_detected = merch_scan (strLower raw)) := by
  refine ⟨?_, by decide, ?_, ?_⟩
  · intro raw
    simp [merch_scan, List.any_eq_true, containsSub_iff]
  · intro Img env s hm
    by_cases hg : (should_website_request s).1 = true
    · rw [check_site_of_gate env s hg]
      simp only [check_site_run]
      split
      · simp [CheckOutcome.state, hm]
      · split
        · simp [CheckOutcome.state, hm]
        · simp only [check_site_scored]
          split
          · simp [CheckOutcome.state, hm]
          · split
            · simp [CheckOutcome.state, nothing_changed, merch_step, hm]
            · split
              · simp [CheckOutcome.state, merch_step, hm]
              · split
                · simp [CheckOutcome.state, (ssn_preserves _).2.1,
                    merch_step, hm]
                · simp [CheckOutcome.state, merch_step, hm]
    · rw [check_site]
      rw [Bool.not_eq_true] at hg
      rw [hg]
      simp only [Bool.false_eq_true, if_false, CheckOutcome.state,
        gate_state_eq]
      exact hm
  · intro Img env s s5 n raw hg hm ht h
    rw [check_site_of_gate env s hg] at h
    simp only [check_site_run] at h
    split at h
    · simp at h
    · split at h
      · simp at h
      · simp only [check_site_scored, ht] at h
        split at h
        · rw [CheckOutcome.ok.injEq] at h
          rw [← h.1]
          simp [nothing_changed, merch_step, hm]
        · split at h
          · rw [CheckOutcome.ok.injEq] at h
            rw [← h.1]
            simp [merch_step, hm]
          · split at h
            · rw [CheckOutcome.ok.injEq] at h
              rw [← h.1, (ssn_preserves _).2.1]
              simp [merch_step, hm]
            · rw [CheckOutcome.ok.injEq] at h
              rw [← h.1]
              simp [merch_step, hm]

/-- Site for the C10 witness, latch case: the latch is already set (the site
is on cooldown, so the check is skipped — the latch must survive anyway). -/
def c10_latch_site : WebsiteData Nat :=
  { c8_site with merch_already_detected := true }

/-- Environment for the C10 witness, completed-check case: capture scores 1,
page text without any trigger keyword. -/
def c10_env : CheckEnv Nat :=
  { atts := fun _ => some 1
    cmp := fun _ _ => some 1
    text := some "hello world" }

/-- Site for the C10 witness, completed-check case: latch unset. -/
def c10_site : WebsiteData Nat :=
  { url := "https://a.example", script := [], screenshot_selector := none,
    wait := 0, threshold := 0, max_retries := 3, last_image := some 0,
    merch_already_detected := false, changes_stacking := 0,
    current_cooldown := 0, total_cooldowns := 0, total_runs := 2 }

/-- The state in which the C10 witness check leaves `c10_site`. -/
def c10_after : WebsiteData Nat :=
  { c10_site with last_image := some 1, total_runs := 3 }

/-- Witness for C10: the set latch survives a check, and a completed check
with the latch unset records the (here negative) scan result. -/
theorem keyword_detection_spec_witness :
    (check_site c8_env c10_latch_site).state.merch_already_detected = true ∧
    c10_after.merch_already_detected = merch_scan (strLower ("hello world")) :=
  ⟨keyword_detection_spec.2.2.1 Nat c8_env c10_latch_site (by decide),
    keyword_detection_spec.2.2.2 Nat c10_env c10_site c10_after none
      ("hello world") (by decide) (by decide) (by decide) (by decide)⟩

/-! ### C4 — when the register transition actually runs -/

/-- The site state just before the notification decision of a completed
check: cooldown gate applied, `totalRuns` bumped, best capture `b` stored,
keyword latch updated from page text `raw`.  The streak and cooldown-count
fields are untouched relative to the pre-check state. -/
def c4_post_state {Img : Type} (s : WebsiteData Img) (b : ℚ × Img)
    (raw : String) : WebsiteData Img :=
  { s with
    current_cooldown := s.current_cooldown - 1
    total_runs := (s.total_runs + 1) % 4294967296
    last_image := some b.2
    merch_already_detected :=
      (merch_step s.merch_already_detected (merch_scan (strLower raw))).2 }

/-- **C4 (amended)**: for a completed check, the quiet branch of
`registerOutcome` always runs, but the reportable branch
(`should_send_notification`) is **not** applied once per executed check: it
runs exactly when the check is non-quiet, not a first run, **and** the
post-increment `totalRuns` exceeds 3 — the `totalRuns > 3` condition
short-circuits the `&&`, so on the unstable early cycles the streak/cooldown
transition is skipped entirely (not merely the notification). -/
theorem register_outcome_gated_by_total_runs (Img : Type)
    (env : CheckEnv Img) (s : WebsiteData Img) (raw : String) (b : ℚ × Img)
    (hg : (should_website_request s).1 = true)
    (he : (collect_shots env.cmp s.threshold s.last_image env.atts 0
      s.max_retries).2 = false)
    (hb : max_shot (collect_shots env.cmp s.threshold s.last_image env.atts 0
      s.max_retries).1 = some b)
    (ht : env.text = some raw) :
    (c4_post_state s b raw).changes_stacking = s.changes_stacking ∧
    (c4_post_state s b raw).total_cooldowns = s.total_cooldowns ∧
    ((!((collect_shots env.cmp s.threshold s.last_image env.atts 0
          s.max_retries).1.all fun p => decide (p.1 < s.threshold)) &&
        !(merch_step s.merch_already_detected
          (merch_scan (strLower raw))).1) = true →
      check_site env s = .ok (nothing_changed (c4_post_state s b raw)) none) ∧
    ((!((collect_shots env.cmp s.threshold s.last_image env.atts 0
          s.max_retries).1.all fun p => decide (p.1 < s.threshold)) &&
        !(merch_step s.merch_already_detected
          (merch_scan (strLower raw))).1) = false →
      s.last_image.isNone = true →
      check_site env s = .ok (c4_post_state s b raw) none) ∧
    ((!((collect_shots env.cmp s.threshold s.last_image env.atts 0
          s.max_retries).1.all fun p => decide (p.1 < s.threshold)) &&
        !(merch_step s.merch_already_detected
          (merch_scan (strLower raw))).1) = false →
      s.last_image.isNone = false →
      (s.total_runs + 1) % 4294967296 ≤ 3 →
      check_site env s = .ok (c4_post_state s b raw) none) ∧
    ((!((collect_shots env.cmp s.threshold s.last_image env.atts 0
          s.max_retries).1.all fun p => decide (p.1 < s.threshold)) &&
        !(merch_step s.merch_already_detected
          (merch_scan (strLower raw))).1) = false →
      s.last_image.isNone = false →
      3 < (s.total_runs + 1) % 4294967296 →
      check_site env s = .ok
        (should_send_notification (c4_post_state s b raw)).2
        (if (should_send_notification (c4_post_state s b raw)).1 then
          some (if (merch_step s.merch_already_detected
            (merch_scan (strLower raw))).1 then 1 else 0)
        else none)) := by
  rw [check_site_of_gate env s hg]
  simp only [check_site_run]
  rw [if_neg (by simp [he]), hb]
  simp only [check_site_scored, ht]
  refine ⟨rfl, rfl, fun hq => ?_, fun hq hf => ?_, fun hq hf hr => ?_,
    fun hq hf hr => ?_⟩
  · rw [if_pos hq]
    rfl
  · rw [if_neg (by simp [hq]), if_pos hf]
    rfl
  · rw [if_neg (by simp [hq]), if_neg (by simp [hf]),
      if_neg (by omega)]
    rfl
  · rw [if_neg (by simp [hq]), if_neg (by simp [hf]), if_pos hr]
    rfl

/-- Environment for the C4 witness and counterexample: the capture has a
different shape from the stored image (comparator fails, score forced 0), no
keyword in the page text — so the change is confirmed on every attempt. -/
def c4_env : CheckEnv Nat :=
  { atts := fun _ => some 1, cmp := fun _ _ => none, text := some "" }

/-- Site for the C4 counterexample: second-ever run (`totalRuns` becomes 2). -/
def c4_site : WebsiteData Nat :=
  { url := "https://a.example", script := [], screenshot_selector := none,
    wait := 0, threshold := 1, max_retries := 1, last_image := some 0,
    merch_already_detected := false, changes_stacking := 0,
    current_cooldown := 0, total_cooldowns := 0, total_runs := 1 }

/-- Site for the C4 witness: sixth-ever run, past the startup guard. -/
def c4w_site : WebsiteData Nat :=
  { c4_site with total_runs := 5 }

/-- Witness for C4: with `totalRuns` past 3, the confirmed change applies
`should_send_notification` exactly once (streak 0 to 1, notification
attempted with priority 0). -/
theorem register_outcome_gated_by_total_runs_witness :
    check_site c4_env c4w_site = .ok
      (should_send_notification (c4_post_state c4w_site ((0 : ℚ), (1 : Nat))
        (""))).2
      (if (should_send_notification (c4_post_state c4w_site
          ((0 : ℚ), (1 : Nat)) (""))).1 then
        some (if (merch_step c4w_site.merch_already_detected
          (merch_scan (strLower ("")))).1 then 1 else 0)
      else none) :=
  (register_outcome_gated_by_total_runs Nat c4_env c4w_site ("")
    ((0 : ℚ), 1) (by decide) (by decide) (by decide)
    (by decide)).2.2.2.2.2 (by decide) (by decide) (by decide)

/-- Counterexample to C4 as stated: on a confirmed change with
`totalRuns = 2` after the increment, the streak is **not** incremented and no
cooldown accounting happens — `should_send_notification` never runs, refuting
"the transition occurs exactly once, independently of the value of
totalRuns". -/
theorem register_outcome_skipped_cex :
    ((collect_shots c4_env.cmp c4_site.threshold c4_site.last_image
      c4_env.atts 0 c4_site.max_retries).1.all
        fun p => decide (p.1 < c4_site.threshold)) = true ∧
    c4_site.last_image.isNone = false ∧
    (check_site c4_env c4_site).state.changes_stacking =
      c4_site.changes_stacking ∧
    (check_site c4_env c4_site).state.changes_stacking ≠
      c4_site.changes_stacking + 1 ∧
    (check_site c4_env c4_site).state.total_cooldowns =
      c4_site.total_cooldowns ∧
    (check_site c4_env c4_site).notification = none := by
  refine ⟨by decide, by decide, by decide, by decide, by decide, by decide⟩

end WebsiteChangeNotifier
